import Mathlib

/-!
Verification development for the patient-similarity dashboard page
(`pages/similarity.py`).

The page's computational core is the `survival_profile` callback: it encodes a
clinician-entered categorical TNM stage to ordinal indices via the staging
scheme (the common data model loaded from `cdm.json`), finds the nearest cluster
centroid by Euclidean distance with `np.argmin`, and pairs the matched cluster's
survival profile with the fixed time axis `range(0, 730, 30)`.  The retrieval
callback `get_similarity_analysis_results` populates the module-level
`centroids` and `profiles` from the remote task result when it is complete.

The embedding below models these callbacks as pure functions.  Python runtime
faults are made explicit as constructors of an error type: each constructor's
comment records the concrete Python exception it stands for, named after the
condition that triggers it (the error taxonomy of the page's specification).
Machine floats are modelled as rationals; the Euclidean distance appears in
theorem statements through `Real.sqrt` applied to the rational sum of squared
coordinate differences.
-/

/-- Staging scheme (common data model): for each of the three clinical axes the
ordered list of valid category labels, from `cdm['t']['values']`,
`cdm['n']['values']`, `cdm['m']['values']`. -/
structure Cdm where
  tValues : List String
  nValues : List String
  mValues : List String

/-- Label lookup, modelling `np.where(np.array(values) == lab)[0][0]`: the first
index at which `lab` occurs in `values`, or `none` when the label is absent
(in Python the `[0][0]` on an empty match array raises `IndexError`). -/
def encodeLabel (values : List String) (lab : String) : Option Nat :=
  if lab ∈ values then some (values.indexOf lab) else none

/-- Ordinal value table, modelling `t_nvalues = list(range(len(t_values)))`
(and likewise for the n and m axes). -/
def nvalues (values : List String) : List Nat :=
  List.range values.length

/-- Stage encoding, modelling the source's two-step
`idx = np.where(...)[0][0]; t = t_nvalues[idx]`: look the label up, then read
the ordinal table at the found index. -/
def encodeStage (values : List String) (lab : String) : Option Nat :=
  (encodeLabel values lab).bind (fun i => (nvalues values).get? i)

/-- Stage decoding (index to label): reading the axis value list at an ordinal
index, the inverse lookup implied by the staging scheme. -/
def decodeStage (values : List String) (i : Nat) : Option String :=
  values.get? i

/-- Sum of squared coordinate differences of two points, the radicand of
`scipy.spatial.distance.euclidean`.  The callers pair 3-dimensional points
(the encoded query and a centroid). -/
def sumSq : List ℚ → List ℚ → ℚ
  | a :: x, b :: y => (a - b) ^ 2 + sumSq x y
  | _, _ => 0

/-- Minimum value of a list of rationals (0 on the empty list, on which
`np.argmin` would raise instead). -/
def minQ : List ℚ → ℚ
  | [] => 0
  | [x] => x
  | x :: y :: ys => min x (minQ (y :: ys))

/-- Index of the first minimum of a list, modelling `np.argmin`: on ties the
lowest index wins. -/
def argminQ : List ℚ → Nat
  | [] => 0
  | [_] => 0
  | x :: y :: ys => if x ≤ minQ (y :: ys) then 0 else argminQ (y :: ys) + 1

/-- Nearest-centroid matching, modelling
`distances = [distance.euclidean(xi, xj) for xj in centroids]` followed by
`idx = np.argmin(distances)`.  Since the square root is strictly monotone on
the nonnegative reals, taking `argmin` over the squared distances returns the
same index as taking it over the Euclidean distances; the theorems state the
minimality in terms of `Real.sqrt` of the squared distance. -/
def matchCluster (xi : List ℚ) (centroids : List (List ℚ)) : Nat :=
  argminQ (centroids.map (fun xj => sumSq xi xj))

/-- Fixed time axis of the survival chart, `list(range(0, 730, 30))`:
the 25 values 0, 30, ..., 720. -/
def survivalDays : List Nat :=
  (List.range 25).map (fun i => 30 * i)

/-- Assembly of the chart's data frame, modelling
`pd.DataFrame({'survival rate': profiles[idx], 'survival days': list(range(0, 730, 30))})`:
pandas pairs the two columns row by row and raises `ValueError` when their
lengths differ, so the result is `none` unless the profile has exactly
`survivalDays.length = 25` values. -/
def assembleSeries (profile : List ℚ) : Option (List (Nat × ℚ)) :=
  if profile.length = survivalDays.length then
    some (survivalDays.zip profile)
  else
    none

/-- Python truthiness of a Dash dropdown value: `None` and the empty string are
falsy, any other string is truthy. -/
def truthy : Option String → Bool
  | none => false
  | some s => !(s == "")

/-- Runtime faults of the `survival_profile` callback, one constructor per
concrete Python exception, named after the condition that raises it. -/
inductive SimError where
  /-- IndexError from `np.where(...)[0][0]` when the entered label is not in
  the axis value list. -/
  | invalidStage : SimError
  /-- TypeError from iterating or subscripting the module-level `centroids` or
  `profiles` while still `None`, i.e. before any successful retrieval. -/
  | noResultsAvailable : SimError
  /-- ValueError from `np.argmin` on an empty distance list. -/
  | emptyCentroids : SimError
  /-- IndexError from `profiles[idx]` when the matched index is outside the
  profile set. -/
  | missingResult : SimError
  /-- ValueError from `pd.DataFrame` on columns of unequal length. -/
  | frameMismatch : SimError
  deriving DecidableEq

/-- Output of the `survival_profile` callback: the empty placeholder
(`html.Plaintext('')`) or the chart, recorded by its (time, probability)
series. -/
inductive SimOut where
  | empty : SimOut
  | chart : List (Nat × ℚ) → SimOut
  deriving DecidableEq

/-- The `survival_profile(t, n, m)` callback.  Mirrors the source line by line:
the truthiness guard on the three inputs, encoding of each label, the
nearest-centroid match, the profile lookup, and the data-frame assembly.  The
module-level `centroids` and `profiles` globals are passed in as `Option`
values (`none` is Python `None`, their initial state). -/
def survival_profile (cdm : Cdm) (centroids profiles : Option (List (List ℚ)))
    (t n m : Option String) : Except SimError SimOut :=
  if truthy t && truthy n && truthy m then
    match encodeStage cdm.tValues (t.getD ""), encodeStage cdm.nValues (n.getD ""),
        encodeStage cdm.mValues (m.getD "") with
    | some ti, some ni, some mi =>
      match centroids with
      | none => Except.error SimError.noResultsAvailable
      | some cs =>
        if cs.isEmpty then Except.error SimError.emptyCentroids
        else
          let xi : List ℚ := [(ti : ℚ), (ni : ℚ), (mi : ℚ)]
          let idx := matchCluster xi cs
          match profiles with
          | none => Except.error SimError.noResultsAvailable
          | some ps =>
            match ps.get? idx with
            | none => Except.error SimError.missingResult
            | some prof =>
              match assembleSeries prof with
              | none => Except.error SimError.frameMismatch
              | some series => Except.ok (SimOut.chart series)
    | _, _, _ => Except.error SimError.invalidStage
  else
    Except.ok SimOut.empty

/-- Runtime fault of the retrieval callback: NameError from formatting
`duration` when the completion branch that assigns it was skipped but the
globals are already populated. -/
inductive RetrError where
  | nameErrorDuration : RetrError
  deriving DecidableEq

/-- Output of the retrieval callback: the blank output (no click yet), the
completion message with the elapsed minutes, or the try-again message. -/
inductive RetrOut where
  | blank : RetrOut
  | completedIn : ℚ → RetrOut
  | stillWaiting : RetrOut
  deriving DecidableEq

/-- The module-level result state: globals `centroids` and `profiles`, both
initially `None`. -/
structure RetrState where
  centroids : Option (List (List ℚ))
  profiles : Option (List (List ℚ))
  deriving DecidableEq

/-- The remote task's reported state, abstracting `client.task.get` and
`client.result.list`: completion flag and, when complete, the result payload
together with the elapsed minutes computed from its finish timestamp. -/
structure TaskStatus where
  complete : Bool
  centroids : List (List ℚ)
  profiles : List (List ℚ)
  elapsedMinutes : ℚ

/-- The `get_similarity_analysis_results(n_clicks)` callback.  When clicked and
the task is complete it assigns the globals and the local `duration`; the UI
branch then tests the truthiness of the globals (non-`None` and non-empty) and
renders the completion message, which reads `duration` (a NameError when it was
never assigned), or the try-again message. -/
def get_similarity_analysis_results (nClicks : Nat) (info : TaskStatus)
    (st : RetrState) : Except RetrError (RetrOut × RetrState) :=
  if 0 < nClicks then
    let st' := if info.complete then
        { centroids := some info.centroids, profiles := some info.profiles }
      else st
    let dur : Option ℚ := if info.complete then some info.elapsedMinutes else none
    match st'.centroids, st'.profiles with
    | some cs, some ps =>
      if !cs.isEmpty && !ps.isEmpty then
        match dur with
        | some d => Except.ok (RetrOut.completedIn d, st')
        | none => Except.error RetrError.nameErrorDuration
      else
        Except.ok (RetrOut.stillWaiting, st')
    | _, _ => Except.ok (RetrOut.stillWaiting, st')
  else
    Except.ok (RetrOut.blank, st)

/-! Helper lemmas about the embedded operations. -/

theorem sumSq_nonneg (x y : List ℚ) : 0 ≤ sumSq x y := by
  induction x generalizing y with
  | nil => cases y <;> simp [sumSq]
  | cons a x ih =>
    cases y with
    | nil => simp [sumSq]
    | cons b y => exact add_nonneg (sq_nonneg _) (ih y)

theorem minQ_le (l : List ℚ) (a : ℚ) (h : a ∈ l) : minQ l ≤ a := by
  induction l with
  | nil => cases h
  | cons x xs ih =>
    cases xs with
    | nil =>
      rcases List.mem_singleton.mp h with rfl
      simp [minQ]
    | cons y ys =>
      rcases List.mem_cons.mp h with rfl | hmem
      · simp only [minQ]
        exact min_le_left _ _
      · calc minQ (x :: y :: ys) ≤ minQ (y :: ys) := by
              simp only [minQ]; exact min_le_right _ _
          _ ≤ a := ih hmem

theorem argminQ_lt_length (l : List ℚ) (h : l ≠ []) : argminQ l < l.length := by
  induction l with
  | nil => exact absurd rfl h
  | cons x xs ih =>
    cases xs with
    | nil => simp [argminQ]
    | cons y ys =>
      by_cases hx : x ≤ minQ (y :: ys)
      · simp [argminQ, hx]
      · have hlen := ih (by simp)
        simp only [argminQ, if_neg hx, List.length_cons]
        simp only [List.length_cons] at hlen
        omega

theorem get?_argminQ (l : List ℚ) (h : l ≠ []) :
    l.get? (argminQ l) = some (minQ l) := by
  induction l with
  | nil => exact absurd rfl h
  | cons x xs ih =>
    cases xs with
    | nil => simp [argminQ, minQ]
    | cons y ys =>
      by_cases hx : x ≤ minQ (y :: ys)
      · simp [argminQ, minQ, hx, min_eq_left hx]
      · have hlt : minQ (y :: ys) < x := lt_of_not_le hx
        have := ih (by simp)
        simp only [argminQ, if_neg hx, minQ, min_eq_right (le_of_lt hlt),
          List.get?_cons_succ]
        exact this

theorem minQ_lt_of_lt_argminQ (l : List ℚ) (j : Nat) (v : ℚ)
    (hj : j < argminQ l) (hv : l.get? j = some v) : minQ l < v := by
  induction l generalizing j with
  | nil => simp [argminQ] at hj
  | cons x xs ih =>
    cases xs with
    | nil => simp [argminQ] at hj
    | cons y ys =>
      by_cases hx : x ≤ minQ (y :: ys)
      · simp [argminQ, hx] at hj
      · have hlt : minQ (y :: ys) < x := lt_of_not_le hx
        rw [show argminQ (x :: y :: ys) = argminQ (y :: ys) + 1 by
          simp [argminQ, hx]] at hj
        cases j with
        | zero =>
          have hxv : x = v := by simpa using hv
          have : minQ (x :: y :: ys) = minQ (y :: ys) := by
            simp [minQ, min_eq_right (le_of_lt hlt)]
          rw [this, ← hxv]
          exact hlt
        | succ k =>
          have hk : k < argminQ (y :: ys) := by omega
          have hrec := ih k hk (by simpa using hv)
          have : minQ (x :: y :: ys) = minQ (y :: ys) := by
            simp [minQ, min_eq_right (le_of_lt hlt)]
          rw [this]
          exact hrec

/-! Concrete fixtures used by the scenario theorems and witnesses: the staging
scheme, centroid set and profile set of the specification's worked scenario.
The profiles have the 25 values the fixed time axis requires; their first two
values are the ones the scenario spells out. -/

def cdmEx : Cdm := ⟨["T1", "T2"], ["N0", "N1"], ["M0", "M1"]⟩

def csEx : List (List ℚ) := [[0, 0, 0], [1, 1, 1]]

def profile0 : List ℚ := [1, 9/10] ++ List.replicate 23 (4/5)

def profile1 : List ℚ := [4/5, 1/2] ++ List.replicate 23 (2/5)

def psEx : List (List ℚ) := [profile0, profile1]

/-- C1: for every non-empty centroid set and every encoded 3-dimensional query
point, the matching step returns an in-range index whose centroid has Euclidean
distance (square root of the sum of squared coordinate differences) less than
or equal to that of every centroid, and strictly less than that of every
centroid of lower index — so on ties the lowest index is returned. -/
theorem C1_nearest_centroid (cs : List (List ℚ)) (xi : List ℚ)
    (hne : cs ≠ []) (hxi : xi.length = 3) (hdim : ∀ c ∈ cs, c.length = 3) :
    ∃ hlt : matchCluster xi cs < cs.length,
      (∀ (j : Nat) (hj : j < cs.length),
        Real.sqrt ((sumSq xi (cs.get ⟨matchCluster xi cs, hlt⟩) : ℚ) : ℝ) ≤
          Real.sqrt ((sumSq xi (cs.get ⟨j, hj⟩) : ℚ) : ℝ)) ∧
      (∀ (j : Nat) (hj : j < cs.length), j < matchCluster xi cs →
        Real.sqrt ((sumSq xi (cs.get ⟨matchCluster xi cs, hlt⟩) : ℚ) : ℝ) <
          Real.sqrt ((sumSq xi (cs.get ⟨j, hj⟩) : ℚ) : ℝ)) := by
  set d : List ℚ := cs.map (fun xj => sumSq xi xj) with hd
  have hdne : d ≠ [] := by
    rw [hd]
    simpa using hne
  have hdlen : d.length = cs.length := by
    rw [hd]; exact List.length_map _ _
  have hlt : matchCluster xi cs < cs.length := by
    have h := argminQ_lt_length d hdne
    rw [hdlen] at h
    exact h
  have hlt' : argminQ d < d.length := by rw [hdlen]; exact hlt
  have hget : ∀ (j : Nat) (hj : j < cs.length),
      d.get ⟨j, by rw [hdlen]; exact hj⟩ = sumSq xi (cs.get ⟨j, hj⟩) := by
    intro j hj
    simp [hd]
  have hmineq : sumSq xi (cs.get ⟨matchCluster xi cs, hlt⟩) = minQ d := by
    have hq := get?_argminQ d hdne
    rw [List.get?_eq_get hlt'] at hq
    have h2 : d.get ⟨argminQ d, hlt'⟩ = minQ d := Option.some.inj hq
    exact (hget _ hlt).symm.trans h2
  have hmin0 : (0 : ℚ) ≤ minQ d := hmineq ▸ sumSq_nonneg xi _
  refine ⟨hlt, ?_, ?_⟩
  · intro j hj
    have hmemj : sumSq xi (cs.get ⟨j, hj⟩) ∈ d := by
      rw [hd]
      exact List.mem_map_of_mem _ (cs.get_mem j hj)
    have hle : minQ d ≤ sumSq xi (cs.get ⟨j, hj⟩) := minQ_le d _ hmemj
    rw [hmineq]
    exact Real.sqrt_le_sqrt (by exact_mod_cast hle)
  · intro j hj hjlt
    have hv : d.get? j = some (sumSq xi (cs.get ⟨j, hj⟩)) := by
      rw [List.get?_eq_get (by rw [hdlen]; exact hj)]
      exact congrArg some (hget j hj)
    have hstrict : minQ d < sumSq xi (cs.get ⟨j, hj⟩) :=
      minQ_lt_of_lt_argminQ d j _ hjlt hv
    rw [hmineq]
    exact Real.sqrt_lt_sqrt (by exact_mod_cast hmin0) (by exact_mod_cast hstrict)

/-- Witness for C1 at the scenario fixture: two centroids, query (0,0,0). -/
theorem C1_nearest_centroid_witness :
    csEx ≠ [] ∧ ([(0 : ℚ), 0, 0] : List ℚ).length = 3 ∧
    (∀ c ∈ csEx, c.length = 3) ∧
    (∃ hlt : matchCluster [(0 : ℚ), 0, 0] csEx < csEx.length,
      (∀ (j : Nat) (hj : j < csEx.length),
        Real.sqrt ((sumSq [(0 : ℚ), 0, 0]
            (csEx.get ⟨matchCluster [(0 : ℚ), 0, 0] csEx, hlt⟩) : ℚ) : ℝ) ≤
          Real.sqrt ((sumSq [(0 : ℚ), 0, 0] (csEx.get ⟨j, hj⟩) : ℚ) : ℝ)) ∧
      (∀ (j : Nat) (hj : j < csEx.length), j < matchCluster [(0 : ℚ), 0, 0] csEx →
        Real.sqrt ((sumSq [(0 : ℚ), 0, 0]
            (csEx.get ⟨matchCluster [(0 : ℚ), 0, 0] csEx, hlt⟩) : ℚ) : ℝ) <
          Real.sqrt ((sumSq [(0 : ℚ), 0, 0] (csEx.get ⟨j, hj⟩) : ℚ) : ℝ))) :=
  ⟨by decide, by decide, by decide,
    C1_nearest_centroid csEx [(0 : ℚ), 0, 0] (by decide) (by decide) (by decide)⟩

theorem encodeStage_of_mem (values : List String) (lab : String)
    (h : lab ∈ values) :
    encodeStage values lab = some (values.indexOf lab) := by
  have hlt : values.indexOf lab < values.length := List.indexOf_lt_length.mpr h
  simp only [encodeStage, encodeLabel, if_pos h, Option.some_bind, nvalues,
    List.get?_eq_getElem?, List.getElem?_range hlt]

theorem encodeStage_of_not_mem (values : List String) (lab : String)
    (h : lab ∉ values) : encodeStage values lab = none := by
  simp [encodeStage, encodeLabel, h]

theorem mem_of_encodeStage_some {values : List String} {lab : String} {i : Nat}
    (h : encodeStage values lab = some i) : lab ∈ values := by
  by_contra hmem
  rw [encodeStage_of_not_mem values lab hmem] at h
  cases h

/-- C2: for all valid (T, N, M) label triples (each label present in its
axis's value list of the staging scheme), encoding each label to its ordinal
index and then decoding that index back to a label returns the original three
labels. -/
theorem C2_encode_decode_roundtrip (cdm : Cdm) (t n m : String)
    (ht : t ∈ cdm.tValues) (hn : n ∈ cdm.nValues) (hm : m ∈ cdm.mValues) :
    ∃ ti ni mi : Nat,
      encodeStage cdm.tValues t = some ti ∧
      encodeStage cdm.nValues n = some ni ∧
      encodeStage cdm.mValues m = some mi ∧
      decodeStage cdm.tValues ti = some t ∧
      decodeStage cdm.nValues ni = some n ∧
      decodeStage cdm.mValues mi = some m := by
  refine ⟨_, _, _, encodeStage_of_mem _ _ ht, encodeStage_of_mem _ _ hn,
    encodeStage_of_mem _ _ hm, ?_, ?_, ?_⟩
  · simpa [decodeStage] using List.indexOf_get? ht
  · simpa [decodeStage] using List.indexOf_get? hn
  · simpa [decodeStage] using List.indexOf_get? hm

/-- Witness for C2 at the scenario staging scheme with labels T1, N0, M0. -/
theorem C2_encode_decode_roundtrip_witness :
    "T1" ∈ cdmEx.tValues ∧ "N0" ∈ cdmEx.nValues ∧ "M0" ∈ cdmEx.mValues ∧
    (∃ ti ni mi : Nat,
      encodeStage cdmEx.tValues "T1" = some ti ∧
      encodeStage cdmEx.nValues "N0" = some ni ∧
      encodeStage cdmEx.mValues "M0" = some mi ∧
      decodeStage cdmEx.tValues ti = some "T1" ∧
      decodeStage cdmEx.nValues ni = some "N0" ∧
      decodeStage cdmEx.mValues mi = some "M0") :=
  ⟨by decide, by decide, by decide,
    C2_encode_decode_roundtrip cdmEx "T1" "N0" "M0"
      (by decide) (by decide) (by decide)⟩

/-- C4: for every stage-matching invocation in which one of the three entered
labels is not present in the corresponding axis's value list of the staging
scheme, the label lookup fault (InvalidStageError, modelling the IndexError of
the source's index-not-found) is raised, and nearest-centroid matching is never
attempted — the result is this error whatever the centroid and profile sets
hold. -/
theorem C4_invalid_label (cdm : Cdm) (t n m : String)
    (ht' : t ≠ "") (hn' : n ≠ "") (hm' : m ≠ "")
    (hbad : t ∉ cdm.tValues ∨ n ∉ cdm.nValues ∨ m ∉ cdm.mValues) :
    ∀ centroids profiles,
      survival_profile cdm centroids profiles (some t) (some n) (some m) =
        Except.error SimError.invalidStage := by
  intro centroids profiles
  cases h1 : encodeStage cdm.tValues t with
  | none => simp [survival_profile, truthy, ht', hn', hm', h1]
  | some ti =>
    cases h2 : encodeStage cdm.nValues n with
    | none => simp [survival_profile, truthy, ht', hn', hm', h1, h2]
    | some ni =>
      cases h3 : encodeStage cdm.mValues m with
      | none => simp [survival_profile, truthy, ht', hn', hm', h1, h2, h3]
      | some mi =>
        rcases hbad with hb | hb | hb
        · exact absurd (mem_of_encodeStage_some h1) hb
        · exact absurd (mem_of_encodeStage_some h2) hb
        · exact absurd (mem_of_encodeStage_some h3) hb

/-- Witness for C4: label T3 is not in the scheme with values T1, T2. -/
theorem C4_invalid_label_witness :
    ("T3" ≠ "") ∧ ("N0" ≠ "") ∧ ("M0" ≠ "") ∧ "T3" ∉ cdmEx.tValues ∧
    survival_profile cdmEx (some csEx) (some psEx)
        (some "T3") (some "N0") (some "M0") =
      Except.error SimError.invalidStage :=
  ⟨by decide, by decide, by decide, by decide,
    C4_invalid_label cdmEx "T3" "N0" "M0" (by decide) (by decide) (by decide)
      (Or.inl (by decide)) (some csEx) (some psEx)⟩

/-- C7: a stage-matching invocation with three valid, selected labels that
happens while the centroid set is still in its initial unset state (the global
is still None, i.e. before any successful retrieval) signals the
NoResultsAvailableError precondition violation (modelling the TypeError of
iterating None), whatever the profile set holds. -/
theorem C7_unset_centroids (cdm : Cdm) (t n m : String)
    (ht : t ∈ cdm.tValues) (hn : n ∈ cdm.nValues) (hm : m ∈ cdm.mValues)
    (ht' : t ≠ "") (hn' : n ≠ "") (hm' : m ≠ "") :
    ∀ profiles,
      survival_profile cdm none profiles (some t) (some n) (some m) =
        Except.error SimError.noResultsAvailable := by
  intro profiles
  simp [survival_profile, truthy, ht', hn', hm', encodeStage_of_mem _ _ ht,
    encodeStage_of_mem _ _ hn, encodeStage_of_mem _ _ hm]

/-- Witness for C7: valid query (T1, N0, M0) with centroids still unset. -/
theorem C7_unset_centroids_witness :
    "T1" ∈ cdmEx.tValues ∧ "N0" ∈ cdmEx.nValues ∧ "M0" ∈ cdmEx.mValues ∧
    survival_profile cdmEx none none (some "T1") (some "N0") (some "M0") =
      Except.error SimError.noResultsAvailable :=
  ⟨by decide, by decide, by decide,
    C7_unset_centroids cdmEx "T1" "N0" "M0" (by decide) (by decide) (by decide)
      (by decide) (by decide) (by decide) none⟩

/-- C10: when at least one of the three stage inputs is unselected (None or
the empty string, both falsy), the handler returns the empty output without
raising any error, with the same result whatever the centroid and profile
state — in particular it succeeds while both are still unset. -/
theorem C10_unselected_input (cdm : Cdm) (t n m : Option String)
    (h : truthy t = false ∨ truthy n = false ∨ truthy m = false) :
    ∀ centroids profiles,
      survival_profile cdm centroids profiles t n m = Except.ok SimOut.empty := by
  intro centroids profiles
  rcases h with h | h | h <;> simp [survival_profile, h]

/-- Witness for C10: T stage unselected, centroids and profiles unset. -/
theorem C10_unselected_input_witness :
    truthy none = false ∧
    survival_profile cdmEx none none none (some "N0") (some "M0") =
      Except.ok SimOut.empty :=
  ⟨rfl, C10_unselected_input cdmEx none (some "N0") (some "M0")
    (Or.inl rfl) none none⟩

/-- C8: nearest-centroid matching is deterministic — two calls with the
identical centroid set and identical query return the same cluster index. -/
theorem C8_match_deterministic (cs1 cs2 : List (List ℚ)) (x1 x2 : List ℚ)
    (hcs : cs1 = cs2) (hx : x1 = x2) :
    matchCluster x1 cs1 = matchCluster x2 cs2 := by
  rw [hcs, hx]

/-- C6: a retrieval invocation whose task reports complete = false, while no
prior retrieval has populated the globals, returns the try-again output without
raising any error, and the state keeps centroids and profiles unset. -/
theorem C6_not_ready (nClicks : Nat) (info : TaskStatus) (st : RetrState)
    (hc : 0 < nClicks) (hinc : info.complete = false)
    (hcen : st.centroids = none) (hpro : st.profiles = none) :
    get_similarity_analysis_results nClicks info st =
      Except.ok (RetrOut.stillWaiting, st) ∧
    st.centroids = none ∧ st.profiles = none := by
  refine ⟨?_, hcen, hpro⟩
  simp [get_similarity_analysis_results, hc, hinc, hcen]

/-- Witness for C6: one click, incomplete task, fresh state. -/
theorem C6_not_ready_witness :
    0 < 1 ∧ (TaskStatus.mk false [] [] 0).complete = false ∧
    (RetrState.mk none none).centroids = none ∧
    (RetrState.mk none none).profiles = none ∧
    (get_similarity_analysis_results 1 (TaskStatus.mk false [] [] 0)
        (RetrState.mk none none) =
      Except.ok (RetrOut.stillWaiting, RetrState.mk none none) ∧
    (RetrState.mk none none).centroids = none ∧
    (RetrState.mk none none).profiles = none) :=
  ⟨by decide, rfl, rfl, rfl,
    C6_not_ready 1 (TaskStatus.mk false [] [] 0) (RetrState.mk none none)
      (by decide) rfl rfl rfl⟩

/-- Counterexample to C3 as stated: a profile with a single value does not
yield a one-pair series — the data-frame assembly pairs the profile with the
fixed 25-value time axis and fails on any other profile length, so the handler
raises the column-length fault instead of rendering a chart. -/
theorem C3_any_length_cex :
    assembleSeries [(9 : ℚ)/10] = none ∧
    survival_profile cdmEx (some [[0, 0, 0]]) (some [[(9 : ℚ)/10]])
        (some "T1") (some "N0") (some "M0") =
      Except.error SimError.frameMismatch :=
  ⟨rfl, rfl⟩

/-- C3 amended: for a matched profile with exactly 25 values (the length of
the fixed time axis range(0, 730, 30)), the renderer assembles the series of
(time, probability) pairs whose times are 30-unit increments starting at 0 and
whose probabilities are the profile's values in order, with exactly as many
pairs as the profile contains; profiles of any other length fail the
data-frame assembly. -/
theorem C3_series_25 (prof : List ℚ) (h : prof.length = 25) :
    assembleSeries prof = some (survivalDays.zip prof) ∧
    (survivalDays.zip prof).length = prof.length ∧
    (survivalDays.zip prof).map Prod.snd = prof ∧
    ∀ (i : Nat) (hi : i < (survivalDays.zip prof).length),
      ((survivalDays.zip prof).get ⟨i, hi⟩).1 = 30 * i := by
  have hdays : survivalDays.length = 25 := rfl
  refine ⟨by simp [assembleSeries, h, hdays], by simp [hdays, h], ?_, ?_⟩
  · exact List.map_snd_zip _ _ (by rw [h, hdays])
  · intro i hi
    have hi' : i < 25 := by
      simp [hdays, h] at hi
      omega
    simp [List.get_eq_getElem, List.getElem_zip, survivalDays,
      List.getElem_map, List.getElem_range]

/-- Witness for C3 amended at the scenario's first profile. -/
theorem C3_series_25_witness :
    profile0.length = 25 ∧
    (assembleSeries profile0 = some (survivalDays.zip profile0) ∧
    (survivalDays.zip profile0).length = profile0.length ∧
    (survivalDays.zip profile0).map Prod.snd = profile0 ∧
    ∀ (i : Nat) (hi : i < (survivalDays.zip profile0).length),
      ((survivalDays.zip profile0).get ⟨i, hi⟩).1 = 30 * i) :=
  ⟨by decide, C3_series_25 profile0 (by decide)⟩

/-- Counterexample to C5 as stated: with two profiles but a single centroid
the invariant on the lengths is violated, yet the handler performs the match
and renders a chart — no check is made and no MissingResultError is raised
before matching. -/
theorem C5_no_length_check_cex :
    psEx.length ≠ ([[(0 : ℚ), 0, 0]] : List (List ℚ)).length ∧
    survival_profile cdmEx (some [[(0 : ℚ), 0, 0]]) (some psEx)
        (some "T1") (some "N0") (some "M0") =
      Except.ok (SimOut.chart (survivalDays.zip profile0)) :=
  ⟨by decide, rfl⟩

/-- C5 amended: the source performs no length check before matching; a length
violation surfaces only after matching, as the profile-lookup index fault
(modelling the IndexError of profiles[idx]) when the matched index falls
outside the profile set, while a violation leaving the matched index in range
is silently tolerated. -/
theorem C5_mismatch_index_fault (cdm : Cdm) (t n m : String)
    (cs ps : List (List ℚ))
    (ht : t ∈ cdm.tValues) (hn : n ∈ cdm.nValues) (hm : m ∈ cdm.mValues)
    (ht' : t ≠ "") (hn' : n ≠ "") (hm' : m ≠ "") (hcs : cs ≠ [])
    (hidx : ps.length ≤ matchCluster [(cdm.tValues.indexOf t : ℚ),
      (cdm.nValues.indexOf n : ℚ), (cdm.mValues.indexOf m : ℚ)] cs) :
    survival_profile cdm (some cs) (some ps) (some t) (some n) (some m) =
      Except.error SimError.missingResult := by
  have hempty : cs.isEmpty = false := by
    cases cs with
    | nil => exact absurd rfl hcs
    | cons c cs' => rfl
  have hget : ps[(matchCluster [(cdm.tValues.indexOf t : ℚ),
      (cdm.nValues.indexOf n : ℚ), (cdm.mValues.indexOf m : ℚ)] cs)]? = none :=
    List.getElem?_eq_none hidx
  simp [survival_profile, truthy, ht', hn', hm', encodeStage_of_mem _ _ ht,
    encodeStage_of_mem _ _ hn, encodeStage_of_mem _ _ hm, hempty, hget]

/-- Witness for C5 amended: two centroids, one profile, query (T2, N1, M1)
matching cluster 1, which has no profile. -/
theorem C5_mismatch_index_fault_witness :
    "T2" ∈ cdmEx.tValues ∧ "N1" ∈ cdmEx.nValues ∧ "M1" ∈ cdmEx.mValues ∧
    csEx ≠ [] ∧
    ([profile0] : List (List ℚ)).length ≤
      matchCluster [(cdmEx.tValues.indexOf "T2" : ℚ),
        (cdmEx.nValues.indexOf "N1" : ℚ), (cdmEx.mValues.indexOf "M1" : ℚ)] csEx ∧
    survival_profile cdmEx (some csEx) (some [profile0])
        (some "T2") (some "N1") (some "M1") =
      Except.error SimError.missingResult := by
  have hidx : ([profile0] : List (List ℚ)).length ≤
      matchCluster [(cdmEx.tValues.indexOf "T2" : ℚ),
        (cdmEx.nValues.indexOf "N1" : ℚ),
        (cdmEx.mValues.indexOf "M1" : ℚ)] csEx := by
    have h1 : cdmEx.tValues.indexOf "T2" = 1 := by decide
    have h2 : cdmEx.nValues.indexOf "N1" = 1 := by decide
    have h3 : cdmEx.mValues.indexOf "M1" = 1 := by decide
    rw [h1, h2, h3]
    norm_num [matchCluster, argminQ, minQ, sumSq, csEx]
  exact ⟨by decide, by decide, by decide, by decide, hidx,
    C5_mismatch_index_fault cdmEx "T2" "N1" "M1" csEx [profile0]
      (by decide) (by decide) (by decide) (by decide) (by decide) (by decide)
      (by decide) hidx⟩

/-- C9: the specification's worked scenario.  With the two-value scheme, the
centroids (0,0,0) and (1,1,1) and the two profiles, the query (T1, N0, M0)
encodes to (0, 0, 0), has Euclidean distance 0 to centroid 0 and the square
root of 3 to centroid 1, matches cluster 0, and the handler renders the first
profile's series; symmetrically (T2, N1, M1) encodes to (1, 1, 1), matches
cluster 1 and renders the second profile's series. -/
theorem C9_worked_scenario :
    encodeStage cdmEx.tValues "T1" = some 0 ∧
    encodeStage cdmEx.nValues "N0" = some 0 ∧
    encodeStage cdmEx.mValues "M0" = some 0 ∧
    sumSq [(0 : ℚ), 0, 0] [0, 0, 0] = 0 ∧
    sumSq [(0 : ℚ), 0, 0] [1, 1, 1] = 3 ∧
    Real.sqrt ((sumSq [(0 : ℚ), 0, 0] [0, 0, 0] : ℚ) : ℝ) = 0 ∧
    Real.sqrt ((sumSq [(0 : ℚ), 0, 0] [1, 1, 1] : ℚ) : ℝ) = Real.sqrt 3 ∧
    matchCluster [(0 : ℚ), 0, 0] csEx = 0 ∧
    survival_profile cdmEx (some csEx) (some psEx)
        (some "T1") (some "N0") (some "M0") =
      Except.ok (SimOut.chart (survivalDays.zip profile0)) ∧
    encodeStage cdmEx.tValues "T2" = some 1 ∧
    encodeStage cdmEx.nValues "N1" = some 1 ∧
    encodeStage cdmEx.mValues "M1" = some 1 ∧
    matchCluster [(1 : ℚ), 1, 1] csEx = 1 ∧
    survival_profile cdmEx (some csEx) (some psEx)
        (some "T2") (some "N1") (some "M1") =
      Except.ok (SimOut.chart (survivalDays.zip profile1)) := by
  have e1 : encodeStage cdmEx.tValues "T1" = some 0 := by decide
  have e2 : encodeStage cdmEx.nValues "N0" = some 0 := by decide
  have e3 : encodeStage cdmEx.mValues "M0" = some 0 := by decide
  have e4 : encodeStage cdmEx.tValues "T2" = some 1 := by decide
  have e5 : encodeStage cdmEx.nValues "N1" = some 1 := by decide
  have e6 : encodeStage cdmEx.mValues "M1" = some 1 := by decide
  have d0 : sumSq [(0 : ℚ), 0, 0] [0, 0, 0] = 0 := by norm_num [sumSq]
  have d1 : sumSq [(0 : ℚ), 0, 0] [1, 1, 1] = 3 := by norm_num [sumSq]
  have hm0 : matchCluster [(0 : ℚ), 0, 0] csEx = 0 := by
    norm_num [matchCluster, argminQ, minQ, sumSq, csEx]
  have hm1 : matchCluster [(1 : ℚ), 1, 1] csEx = 1 := by
    norm_num [matchCluster, argminQ, minQ, sumSq, csEx]
  refine ⟨e1, e2, e3, d0, d1, ?_, ?_, hm0, ?_, e4, e5, e6, hm1, ?_⟩
  · rw [d0]
    norm_num
  · rw [d1]
    norm_num
  · have hm0' : matchCluster [(0 : ℚ), 0, 0]
        ([[0, 0, 0], [1, 1, 1]] : List (List ℚ)) = 0 := hm0
    simp [survival_profile, truthy, e1, e2, e3, hm0', psEx, assembleSeries,
      profile0, survivalDays, csEx]
  · have hm1' : matchCluster [(1 : ℚ), 1, 1]
        ([[0, 0, 0], [1, 1, 1]] : List (List ℚ)) = 1 := hm1
    simp [survival_profile, truthy, e4, e5, e6, hm1', psEx, assembleSeries,
      profile1, survivalDays, csEx]

/-- Witness for C8 at the scenario fixture. -/
theorem C8_match_deterministic_witness :
    csEx = csEx ∧ ([(0 : ℚ), 0, 0] : List ℚ) = [(0 : ℚ), 0, 0] ∧
    matchCluster [(0 : ℚ), 0, 0] csEx = matchCluster [(0 : ℚ), 0, 0] csEx :=
  ⟨rfl, rfl,
    C8_match_deterministic csEx csEx [(0 : ℚ), 0, 0] [(0 : ℚ), 0, 0] rfl rfl⟩
